import Mathlib

/-!
Shallow embedding of `app/routes/sensor_routes.py` (FastAPI sensor routes of
the smart-bus IoT backend): the three request handlers `ingest_data`
(`POST /ingest`), `test_thingspeak` (`GET /test_thingspeak`) and
`get_latest_reading` (`GET /latest`), together with the store and relay
collaborators they call.

External collaborators are modelled by explicit parameters:
the MongoDB collection `sensor_readings` becomes a list of documents with
monotonically increasing identifiers (Mongo ObjectIds grow with insertion
order, and `find_one(sort=[("_id", -1)])` returns the document with the
largest identifier); possible driver failure of `insert_one` and the
behaviour of `ThingspeakService.send_data` (returns a boolean, or raises)
are injected as arguments.

Numeric sensor values (Python floats that are only passed through, never
computed with) are modelled as rationals.

A crucial point of fidelity: FastAPI's `HTTPException` is a subclass of
`Exception`, so an `HTTPException` raised inside a `try:` block is caught
by that block's own `except Exception as e:` clause.  The `Exc` type and
the `tryExcept500` combinator model this: every exception raised inside a
handler's `try` body — the handler's own `HTTPException`s included — is
converted by the `except` clause into a 500 response carrying `str(e)`
(modern Starlette renders `str` of an `HTTPException` as
`"<status>: <detail>"`; a plain exception renders as its message).
-/

/-- An exception value as seen by `except Exception as e`: either an
`HTTPException(status_code, detail)` raised by the handler itself, or a
generic exception (driver error, relay error) carrying its message. -/
inductive Exc where
  | http (status : Nat) (detail : String)
  | generic (msg : String)
deriving DecidableEq

/-- Python `str(e)`: modern Starlette's `HTTPException.__str__` renders
`"<status_code>: <detail>"`; a generic exception renders its message. -/
def Exc.toStr : Exc → String
  | .http s d => toString s ++ ": " ++ d
  | .generic m => m

/-- Outcome of a handler as observed at the HTTP layer: a JSON body with
status 200, or an `HTTPException` escaping the handler with a status code
and a detail string. -/
inductive HttpResult (α : Type) where
  | ok (body : α)
  | error (status : Nat) (detail : String)
deriving DecidableEq

/-- Whether a handler outcome is a 200 success. -/
def HttpResult.isOk {α : Type} : HttpResult α → Bool
  | .ok _ => true
  | .error _ _ => false

/-- The `try: ... except Exception as e: raise HTTPException(status_code=500,
detail=pre + str(e))` pattern shared by all three handlers.  Any exception
produced by the body — `HTTPException`s the body raised itself included,
since `HTTPException` subclasses `Exception` — becomes a 500 whose detail
is the (possibly prefixed) `str(e)`. -/
def tryExcept500 {α : Type} (pre : String) (body : Except Exc α) : HttpResult α :=
  match body with
  | .ok a => .ok a
  | .error e => .error 500 (pre ++ e.toStr)

/-- The request body of `POST /ingest`, `app/models/sensor.py`'s
`SensorReading` pydantic model: numeric `temperature` and `humidity`. -/
structure SensorReading where
  temperature : ℚ
  humidity : ℚ
deriving DecidableEq

/-- A document of the `sensor_readings` collection: the store-assigned
`_id` plus the persisted reading fields, each possibly absent (the
`/latest` handler defends against missing keys with `doc.get(..., 0)`). -/
structure Document where
  id : Nat
  temperature : Option ℚ
  humidity : Option ℚ
deriving DecidableEq

/-- The `sensor_readings` collection, in insertion order. -/
abbrev Store := List Document

/-- The store-generated identifier for the next insert.  Mongo ObjectIds
increase with insertion order; any strictly-larger-than-all-existing
choice models this, and `max + 1` is the simplest. -/
def nextId (s : Store) : Nat := (s.map Document.id).foldr max 0 + 1

/-- `reading.dict()` as persisted by `insert_one`, with the generated id. -/
def SensorReading.toDoc (r : SensorReading) (i : Nat) : Document :=
  { id := i, temperature := some r.temperature, humidity := some r.humidity }

/-- Behaviour of `ThingspeakService.send_data` on one invocation: it
returns a boolean, or raises an exception with the given message. -/
inductive RelayBehavior where
  | returns (success : Bool)
  | raises (msg : String)
deriving DecidableEq

/-- What one `POST /ingest` request produced: the HTTP response, the store
after the request, and whether `send_data` was invoked. -/
structure IngestBody where
  status : String
  id : String
deriving DecidableEq

structure IngestOutcome where
  response : HttpResult IngestBody
  store : Store
  relayCalled : Bool
deriving DecidableEq

/-- The credential check of `ingest_data`, line 25 of `sensor_routes.py`:
`if x_api_key != settings.iot_api_key`.  The header is `None` when absent
(`x_api_key: str = Header(None)`), and the configured secret may in
principle also be `None`, so both sides are `Option String` and `!=` is
structural inequality. -/
def authFails (x_api_key iot_api_key : Option String) : Bool :=
  x_api_key != iot_api_key

/-- `ingest_data` (`POST /ingest`), lines 17-42 of `sensor_routes.py`.
Checks the credential before the `try` block (so the 401 escapes
untouched); inside the `try`: `insert_one(reading.dict())`, then
`send_data(reading.temperature, reading.humidity)` whose boolean result is
ignored, then `return {"status": "ok", "id": str(result.inserted_id)}`.
`insertFail = some msg` injects an `insert_one` driver exception;
the `except Exception` clause turns any exception from insert or relay
into a 500 with `str(e)` as detail. -/
def ingest_data (reading : SensorReading) (x_api_key iot_api_key : Option String)
    (insertFail : Option String) (relay : RelayBehavior) (store : Store) :
    IngestOutcome :=
  if authFails x_api_key iot_api_key then
    { response := .error 401 "Chave IoT inválida.", store := store, relayCalled := false }
  else
    match insertFail with
    | some msg =>
        { response := tryExcept500 "" (.error (.generic msg)),
          store := store, relayCalled := false }
    | none =>
        let newId := nextId store
        let store' := store ++ [reading.toDoc newId]
        match relay with
        | .raises msg =>
            { response := tryExcept500 "" (.error (.generic msg)),
              store := store', relayCalled := true }
        | .returns _ =>
            { response := .ok { status := "ok", id := toString newId },
              store := store', relayCalled := true }

/-- The response body of a successful `GET /test_thingspeak`. -/
structure TestBody where
  status : String
  message : String
deriving DecidableEq

/-- The f-string of the success branch:
`f"Dados enviados ao ThingSpeak: {temperature}°C / {humidity}%"`. -/
def testMessage (temperature humidity : ℚ) : String :=
  "Dados enviados ao ThingSpeak: " ++ toString temperature ++ "°C / "
    ++ toString humidity ++ "%"

/-- The `try` body of `test_thingspeak`: call `send_data`; on `True`
return the success payload; on `False` raise `HTTPException(400, ...)`;
a raising `send_data` propagates its exception. -/
def test_thingspeak_body (temperature humidity : ℚ) (relay : RelayBehavior) :
    Except Exc TestBody :=
  match relay with
  | .raises msg => .error (.generic msg)
  | .returns true =>
      .ok { status := "success", message := testMessage temperature humidity }
  | .returns false => .error (.http 400 "Falha ao enviar ao ThingSpeak.")

/-- `test_thingspeak` (`GET /test_thingspeak`), lines 47-63 of
`sensor_routes.py`.  Note that the `HTTPException(400)` raised on a
`False` relay result sits inside the `try`, so the handler's own
`except Exception` converts it into a 500. -/
def test_thingspeak (temperature humidity : ℚ) (relay : RelayBehavior) :
    HttpResult TestBody :=
  tryExcept500 "" (test_thingspeak_body temperature humidity relay)

/-- The response body of a successful `GET /latest`. -/
structure LatestBody where
  temperatura : ℚ
  umidade : ℚ
  onibus : List String
deriving DecidableEq

/-- The later-inserted of two documents, by identifier. -/
def pickLater (a b : Document) : Document := if a.id < b.id then b else a

/-- `find_one(sort=[("_id", -1)])`: the document with the largest
identifier, `none` on an empty collection. -/
def findLatestDoc : Store → Option Document
  | [] => none
  | d :: ds => some (ds.foldl pickLater d)

/-- The `try` body of `get_latest_reading`: fetch the latest document;
raise `HTTPException(404, "Nenhum dado encontrado")` if there is none;
otherwise build the payload with `doc.get("temperature", 0)`,
`doc.get("humidity", 0)` and the hard-coded bus list. -/
def get_latest_reading_body (s : Store) : Except Exc LatestBody :=
  match findLatestDoc s with
  | none => .error (.http 404 "Nenhum dado encontrado")
  | some doc =>
      .ok { temperatura := doc.temperature.getD 0,
            umidade := doc.humidity.getD 0,
            onibus := ["Bus 101", "Bus 202"] }

/-- `get_latest_reading` (`GET /latest`), lines 67-97 of
`sensor_routes.py`.  The 404 raised on an empty store sits inside the
`try`, so the `except Exception` clause converts it into a 500 whose
detail is `f"Erro ao buscar última leitura: {e}"`. -/
def get_latest_reading (s : Store) : HttpResult LatestBody :=
  tryExcept500 "Erro ao buscar última leitura: " (get_latest_reading_body s)

/-- `get_latest_reading` together with the store it leaves behind: the
handler only runs a `find_one`, it performs no write. -/
def get_latest_reading_st (s : Store) : HttpResult LatestBody × Store :=
  (get_latest_reading s, s)

/-! ### Helper lemmas -/

/-- `Nat.toDigitsCore` with a non-empty accumulator is non-empty. -/
theorem toDigitsCore_cons_ne_nil (b f n : Nat) (c : Char) (tl : List Char) :
    Nat.toDigitsCore b f n (c :: tl) ≠ [] := by
  intro hnil
  have h := Nat.toDigitsCore_lens_eq b f n c tl
  rw [hnil] at h
  simp at h

/-- The decimal string form of a natural number is never empty. -/
theorem toString_nat_ne_empty (n : Nat) : toString n ≠ "" := by
  show Nat.repr n ≠ ""
  unfold Nat.repr Nat.toDigits
  intro he
  have hdata : (Nat.toDigitsCore 10 (n + 1) n []).asString.data = ("" : String).data :=
    congrArg String.data he
  simp only [List.asString] at hdata
  have hnil : Nat.toDigitsCore 10 (n + 1) n [] = [] := hdata
  rw [Nat.toDigitsCore] at hnil
  by_cases hdiv : n / 10 = 0
  · rw [if_pos hdiv] at hnil
    exact List.cons_ne_nil _ _ hnil
  · rw [if_neg hdiv] at hnil
    exact toDigitsCore_cons_ne_nil _ _ _ _ _ hnil

/-- `pickLater` returns one of its two arguments. -/
theorem pickLater_cases (a b : Document) : pickLater a b = a ∨ pickLater a b = b := by
  unfold pickLater
  split
  · exact Or.inr rfl
  · exact Or.inl rfl

theorem id_le_pickLater_left (a b : Document) : a.id ≤ (pickLater a b).id := by
  unfold pickLater
  split <;> omega

theorem id_le_pickLater_right (a b : Document) : b.id ≤ (pickLater a b).id := by
  unfold pickLater
  split <;> omega

/-- The document selected by folding `pickLater` is one of the documents. -/
theorem foldl_pickLater_mem (d : Document) (ds : List Document) :
    ds.foldl pickLater d ∈ d :: ds := by
  induction ds generalizing d with
  | nil => simp
  | cons e es ih =>
    rw [List.foldl_cons]
    have h := ih (pickLater d e)
    rcases List.mem_cons.1 h with h1 | h1
    · rcases pickLater_cases d e with hp | hp
      · rw [h1, hp]
        exact List.mem_cons_self _ _
      · rw [h1, hp]
        exact List.mem_cons_of_mem _ (List.mem_cons_self _ _)
    · exact List.mem_cons_of_mem _ (List.mem_cons_of_mem _ h1)

/-- The document selected by folding `pickLater` has the largest identifier. -/
theorem foldl_pickLater_ge (d : Document) (ds : List Document) :
    ∀ x ∈ d :: ds, x.id ≤ (ds.foldl pickLater d).id := by
  induction ds generalizing d with
  | nil =>
    intro x hx
    rw [List.mem_singleton] at hx
    rw [hx]
    exact Nat.le_refl _
  | cons e es ih =>
    intro x hx
    rw [List.foldl_cons]
    rcases List.mem_cons.1 hx with h1 | h1
    · rw [h1]
      exact Nat.le_trans (id_le_pickLater_left d e)
        (ih (pickLater d e) _ (List.mem_cons_self _ _))
    · rcases List.mem_cons.1 h1 with h2 | h2
      · rw [h2]
        exact Nat.le_trans (id_le_pickLater_right d e)
          (ih (pickLater d e) _ (List.mem_cons_self _ _))
      · exact ih (pickLater d e) x (List.mem_cons_of_mem _ h2)

/-- With equal header and secret the credential check passes. -/
theorem authFails_self (key : Option String) : authFails key key = false := by
  unfold authFails
  exact bne_self_eq_false key

/-! ### Claim theorems -/

/-- C1 (counterexample): with the correct credential and a successful
insert, a `send_data` that raises does NOT leave the success
acknowledgment intact — the `except Exception` clause turns it into a 500
response, so the response is not a success. -/
theorem ingest_relay_exception_cex :
    (ingest_data ⟨25, 80⟩ (some "k") (some "k") none (.raises "connection reset") []).response
      = .error 500 "connection reset"
    ∧ ((ingest_data ⟨25, 80⟩ (some "k") (some "k") none
        (.raises "connection reset") []).response).isOk = false :=
  ⟨rfl, rfl⟩

/-- C1 (amended): with the correct credential and a successful insert, a
relay that RETURNS (true or false alike) never changes the success
acknowledgment carrying the stored identifier; but a relay invocation
that RAISES is caught by the handler's `except Exception` clause and the
response becomes a 500 internal error carrying the exception's message. -/
theorem ingest_relay_outcome_policy (reading : SensorReading) (key : Option String)
    (store : Store) (b : Bool) (msg : String) :
    (ingest_data reading key key none (.returns b) store).response
      = .ok { status := "ok", id := toString (nextId store) }
    ∧ (ingest_data reading key key none (.raises msg) store).response
      = .error 500 msg := by
  unfold ingest_data
  rw [authFails_self]
  exact ⟨rfl, rfl⟩

/-- C2 (code evaluated at the failing input): on an empty store the 404
raised by `get_latest_reading` is caught by its own `except Exception`
clause, so the handler actually responds 500, not 404. -/
theorem latest_empty_store_returns_500 :
    get_latest_reading []
      = .error 500 "Erro ao buscar última leitura: 404: Nenhum dado encontrado"
    ∧ get_latest_reading [] ≠ .error 404 "Nenhum dado encontrado" := by
  refine ⟨rfl, ?_⟩
  decide

/-- C3 (code evaluated at the failing input): when `send_data` returns
`False`, the `HTTPException(400)` raised inside the `try` is caught by
`except Exception` and re-raised as a 500, so the handler responds 500,
not 400; a raising `send_data` also yields a 500 with the message. -/
theorem test_thingspeak_relay_false_returns_500 :
    test_thingspeak 25 80 (.returns false)
      = .error 500 "400: Falha ao enviar ao ThingSpeak."
    ∧ test_thingspeak 25 80 (.returns false) ≠ .error 400 "Falha ao enviar ao ThingSpeak."
    ∧ test_thingspeak 25 80 (.raises "timeout") = .error 500 "timeout" := by
  refine ⟨rfl, ?_, rfl⟩
  decide

/-- C4: a credential different from the configured secret makes `/ingest`
return 401 with no store insert and no relay call — the check precedes
the `try` block, so persistence is never reached. -/
theorem ingest_bad_credential_rejected (reading : SensorReading)
    (x_api_key iot_api_key : Option String) (insertFail : Option String)
    (relay : RelayBehavior) (store : Store) (h : x_api_key ≠ iot_api_key) :
    ingest_data reading x_api_key iot_api_key insertFail relay store
      = { response := .error 401 "Chave IoT inválida.", store := store,
          relayCalled := false } := by
  unfold ingest_data
  rw [show authFails x_api_key iot_api_key = true from bne_iff_ne.mpr h]
  rfl

/-- C4 witness at a concrete mismatched credential. -/
theorem ingest_bad_credential_rejected_witness :
    ingest_data ⟨25, 80⟩ (some "errada") (some "chave") none (.returns true) []
      = { response := .error 401 "Chave IoT inválida.", store := [],
          relayCalled := false } :=
  ingest_bad_credential_rejected ⟨25, 80⟩ (some "errada") (some "chave") none
    (.returns true) [] (by decide)

/-- C5 (counterexample): with the correct credential and a successful
insert, a raising relay leaves exactly one new document in the store yet
the response is NOT the success payload — it is a 500. -/
theorem ingest_success_shape_cex :
    (ingest_data ⟨1, 2⟩ (some "s") (some "s") none (.raises "relay fora do ar") []).store
      = [{ id := 1, temperature := some 1, humidity := some 2 }]
    ∧ ((ingest_data ⟨1, 2⟩ (some "s") (some "s") none
        (.raises "relay fora do ar") []).response).isOk = false :=
  ⟨rfl, rfl⟩

/-- C5 (amended): with the correct credential, a successful insert and a
relay invocation that returns (rather than raises), `/ingest` appends
exactly one document to the store and responds
`{status: "ok", id: str(inserted_id)}` with a non-empty identifier. -/
theorem ingest_persists_one_document (reading : SensorReading) (key : Option String)
    (b : Bool) (store : Store) :
    (ingest_data reading key key none (.returns b) store).store
      = store ++ [reading.toDoc (nextId store)]
    ∧ (ingest_data reading key key none (.returns b) store).response
      = .ok { status := "ok", id := toString (nextId store) }
    ∧ toString (nextId store) ≠ "" := by
  unfold ingest_data
  rw [authFails_self]
  exact ⟨rfl, rfl, toString_nat_ne_empty _⟩

/-- C6: on a non-empty store, `/latest` returns 200 with the temperature
and humidity of the stored document with the largest identifier (the
most recently inserted one), each defaulting to zero when absent, plus
the hard-coded bus list. -/
theorem latest_nonempty_returns_max_doc (store : Store) (h : store ≠ []) :
    ∃ doc, findLatestDoc store = some doc ∧ doc ∈ store
      ∧ (∀ d ∈ store, d.id ≤ doc.id)
      ∧ get_latest_reading store
        = .ok { temperatura := doc.temperature.getD 0, umidade := doc.humidity.getD 0,
                onibus := ["Bus 101", "Bus 202"] } := by
  cases store with
  | nil => exact absurd rfl h
  | cons d ds =>
    exact ⟨ds.foldl pickLater d, rfl, foldl_pickLater_mem d ds,
      foldl_pickLater_ge d ds, rfl⟩

/-- C6 witness on a concrete one-document store. -/
theorem latest_nonempty_returns_max_doc_witness :
    ([{ id := 1, temperature := some 25, humidity := some 80 }] : Store) ≠ []
    ∧ ∃ doc,
        findLatestDoc [{ id := 1, temperature := some 25, humidity := some 80 }] = some doc
        ∧ doc ∈ [({ id := 1, temperature := some 25, humidity := some 80 } : Document)]
        ∧ (∀ d ∈ [({ id := 1, temperature := some 25, humidity := some 80 } : Document)],
            d.id ≤ doc.id)
        ∧ get_latest_reading [{ id := 1, temperature := some 25, humidity := some 80 }]
          = .ok { temperatura := doc.temperature.getD 0, umidade := doc.humidity.getD 0,
                  onibus := ["Bus 101", "Bus 202"] } :=
  ⟨List.cons_ne_nil _ _,
    latest_nonempty_returns_max_doc
      [{ id := 1, temperature := some 25, humidity := some 80 }] (List.cons_ne_nil _ _)⟩

/-- C7: when the relay reports success, `/test_thingspeak` responds 200
with `status = "success"` and a message embedding exactly the two input
values. -/
theorem test_thingspeak_success_message (t h : ℚ) :
    test_thingspeak t h (.returns true)
      = .ok { status := "success",
              message := "Dados enviados ao ThingSpeak: " ++ toString t ++ "°C / "
                ++ toString h ++ "%" } :=
  rfl

/-- C8: `/latest` mutates nothing and is a deterministic function of the
store: a second call on the store left by the first returns the same
response, and the store after each call equals the store before it. -/
theorem latest_idempotent_no_mutation (s : Store) :
    (get_latest_reading_st s).2 = s
    ∧ (get_latest_reading_st ((get_latest_reading_st s).2)).1
      = (get_latest_reading_st s).1 :=
  ⟨rfl, rfl⟩

/-- C9: with the header absent (`x_api_key = None`), `/ingest` returns
401 with no insert and no relay call whenever the configured secret is
not `None`; and the absent header passes the credential check exactly
when the secret itself is `None`. -/
theorem ingest_missing_header (reading : SensorReading) (secret : Option String)
    (insertFail : Option String) (relay : RelayBehavior) (store : Store) :
    (secret ≠ none →
      ingest_data reading none secret insertFail relay store
        = { response := .error 401 "Chave IoT inválida.", store := store,
            relayCalled := false })
    ∧ (authFails none secret = false ↔ secret = none) := by
  constructor
  · intro hs
    exact ingest_bad_credential_rejected reading none secret insertFail relay store
      (fun he => hs he.symm)
  · unfold authFails
    cases secret with
    | none => simp
    | some s => simp

/-- C9 witness at a concrete non-None secret. -/
theorem ingest_missing_header_witness :
    ingest_data ⟨25, 80⟩ none (some "chave") none (.returns true) []
      = { response := .error 401 "Chave IoT inválida.", store := [],
          relayCalled := false }
    ∧ (authFails none (some "chave") = false ↔ (some "chave" : Option String) = none) :=
  ⟨(ingest_missing_header ⟨25, 80⟩ (some "chave") none (.returns true) []).1
      (by decide),
    (ingest_missing_header ⟨25, 80⟩ (some "chave") none (.returns true) []).2⟩

/-- C10: with the correct credential, an `insert_one` that raises makes
`/ingest` respond 500 with the exception's message, leave the store
unchanged and never invoke the relay; in general the relay is invoked
exactly when the insert completed successfully. -/
theorem ingest_insert_before_relay (reading : SensorReading) (key : Option String)
    (msg : String) (insertFail : Option String) (relay : RelayBehavior) (store : Store) :
    ingest_data reading key key (some msg) relay store
      = { response := .error 500 msg, store := store, relayCalled := false }
    ∧ (ingest_data reading key key insertFail relay store).relayCalled
      = insertFail.isNone := by
  unfold ingest_data
  rw [authFails_self]
  refine ⟨rfl, ?_⟩
  cases insertFail with
  | none => cases relay with
    | returns b => rfl
    | raises m => rfl
  | some m => rfl
